import Mathlib

/-
  Verification of the call-center daily-close pipeline.

  The development shallow-embeds the two source files of the repository:
    * main.py    : column normalization, metric extraction, fact-table
                   construction (wide and long), and the /run_daily_close
                   endpoint with its in-memory lock/ledger;
    * summary.py : KPI attainment computation and the five-line summary text.

  Modelling conventions
    * A spreadsheet table (pandas DataFrame) is a `Frame`: a list of column
      names plus rows, each row an association list from column name to `Cell`.
      A missing entry of a row reads as `Cell.blank` (pandas NaN).
    * Python floats are modelled as `Option ℚ`: `none` stands for a
      non-finite value (NaN or infinity), `some q` for a finite value.
    * Decimal formatting (`f"{x:.1f}"` etc.) is modelled with round-to-nearest
      (`round`); Python formats floats with ties-to-even on the binary value,
      which agrees on every value appearing in the verified properties.
    * Fallible Python code (raised exceptions) is modelled with `Except`.
-/

/-- One spreadsheet cell: a string, a (finite) number, or blank (pandas NaN). -/
inductive Cell where
  | s (v : String)
  | n (v : ℚ)
  | blank
deriving DecidableEq, Repr

/-- A row: association list from column name to cell, in column order. -/
abbrev Row := List (String × Cell)

/-- A table: column names plus rows. -/
structure Frame where
  cols : List String
  rows : List Row
deriving DecidableEq, Repr

/-- First cell stored under column `k` in row `r`. -/
def lookupCell (k : String) : Row → Option Cell
  | [] => none
  | (a, v) :: t => if a = k then some v else lookupCell k t

/-- Cell of row `r` at column `c`; a missing entry reads as blank (pandas NaN). -/
def getCellD (r : Row) (c : String) : Cell :=
  (lookupCell c r).getD Cell.blank

/-- Characters removed by Python str.strip() (the ones relevant to the data). -/
def isPySpace (c : Char) : Bool :=
  c == ' ' || c == '\t' || c == '\n' || c == '\r' || c == '\x0b' || c == '\x0c' || c == '　'

/-- Python str.strip(): remove leading and trailing whitespace. -/
def pyStrip (s : String) : String :=
  String.mk (((s.toList.dropWhile isPySpace).reverse.dropWhile isPySpace).reverse)

/-- Python str(float) for a finite value; exact for integral values, which are
the only numeric-to-string casts the verified properties exercise. -/
def ratStr (q : ℚ) : String :=
  if q.den = 1 then toString q.num ++ ".0" else toString q.num ++ "/" ++ toString q.den

/-- Python str() of a cell, as pandas astype(str) applies it elementwise;
str(NaN) is the three-letter string nan. -/
def cellStr : Cell → String
  | .s v => v
  | .n q => ratStr q
  | .blank => "nan"

/-- main.py BASE_COLS: the required common input columns. -/
def BASE_COLS : List String :=
  ["日付", "agent_id", "氏名", "勤務区分", "実働時間(h)", "CPD目標"]

/-- main.py REQUIRED_FILES. -/
def REQUIRED_FILES : List String :=
  ["CPH.xlsx", "AHT.xlsx", "ATT.xlsx", "ACW.xlsx", "CPD.xlsx", "着座比率.xlsx", "稼働率.xlsx"]

/-- main.py METRIC_BY_FILENAME (total function; queried only on REQUIRED_FILES). -/
def metricByFilename (fn : String) : String :=
  if fn = "CPH.xlsx" then "CPH"
  else if fn = "AHT.xlsx" then "AHT"
  else if fn = "ATT.xlsx" then "ATT"
  else if fn = "ACW.xlsx" then "ACW"
  else if fn = "CPD.xlsx" then "CPD"
  else if fn = "着座比率.xlsx" then "着座比率"
  else if fn = "稼働率.xlsx" then "稼働率"
  else ""

/-- Aliases renamed to agent_id by _normalize_common_columns. -/
def agentAliases : List String :=
  ["エージェントID", "エージェントId", "agent_id", "AgentID", "AGENT_ID", "ID"]

/-- _clean_columns on one header: strip, then replace full-width spaces. -/
def cleanCol (c : String) : String :=
  String.mk ((pyStrip c).toList.map (fun ch => if ch == '　' then ' ' else ch))

/-- Header normalization of _normalize_common_columns: clean, then rename
agent-id aliases to the canonical agent_id. -/
def normCol (c : String) : String :=
  let c1 := cleanCol c
  if pyStrip c1 ∈ agentAliases then "agent_id" else c1

/-- Python repr of a list of strings (used in error payload strings). -/
def pyStrListRepr (l : List String) : String :=
  "[" ++ String.intercalate ", " (l.map (fun s => "\x27" ++ s ++ "\x27")) ++ "]"

/-- Errors raised by _extract_metric_series (all ValueError in Python). -/
inductive ExtractErr where
  | schema (missing : List String) (found : List String)
  | ambiguous (metric : String) (cands : List String)
  | dupKeys (metric : String) (sample : List (Cell × Cell))
deriving DecidableEq, Repr

/-- main.py _normalize_common_columns: clean and rename headers, require the
base columns, cast agent_id to stripped strings.  Rows are rebuilt with one
entry per (normalized) column, as pandas rows always carry every column. -/
def normalizeCommonColumns (f : Frame) : Except ExtractErr Frame :=
  let cols := f.cols.map normCol
  let missing := BASE_COLS.filter (fun c => c ∉ cols)
  if missing ≠ [] then .error (.schema missing cols)
  else .ok
    { cols := cols
      rows := f.rows.map (fun r =>
        let r' := r.map (fun kv => (normCol kv.1, kv.2))
        cols.map (fun c =>
          if c = "agent_id" then (c, Cell.s (pyStrip (cellStr (getCellD r' c))))
          else (c, getCellD r' c))) }

/-- Digits-to-value helper for the numeric parser. -/
def digitsVal (cs : List Char) : ℕ :=
  cs.foldl (fun a c => a * 10 + (c.toNat - 48)) 0

/-- Numeric string parser modelling pd.to_numeric on a plain decimal literal
(optional sign, digits, optional fractional part).  Other inputs (exponent
notation, words) coerce to missing, as errors="coerce" never raises. -/
def parseNumStr (s : String) : Option ℚ :=
  let cs := s.toList
  let sgn : ℚ := match cs with
    | '-' :: _ => -1
    | _ => 1
  let cs1 : List Char := match cs with
    | '-' :: t => t
    | '+' :: t => t
    | _ => cs
  if cs1.count '.' = 0 then
    if cs1 ≠ [] ∧ cs1.all Char.isDigit then some (sgn * digitsVal cs1) else none
  else if cs1.count '.' = 1 then
    let ip := cs1.takeWhile (fun c => c != '.')
    let fp := (cs1.dropWhile (fun c => c != '.')).drop 1
    if (ip ++ fp) ≠ [] ∧ (ip ++ fp).all Char.isDigit then
      some (sgn * ((digitsVal ip : ℚ) + (digitsVal fp : ℚ) / (10 ^ fp.length : ℚ)))
    else none
  else none

/-- summary.py _to_num: pd.to_numeric(s, errors="coerce") elementwise. -/
def toNumCell (c : Cell) : Option ℚ :=
  match c with
  | .n q => some q
  | .blank => none
  | .s v => parseNumStr (pyStrip v)

/-- main.py _to_numeric_series elementwise: cast to str, drop percent signs and
thousands commas, strip, parse.  For an already-numeric cell the string
round-trip is the identity, so it is taken directly. -/
def toNumericSeries (c : Cell) : Option ℚ :=
  match c with
  | .n q => some q
  | .blank => none
  | .s v => parseNumStr (pyStrip (String.mk (v.toList.filter (fun ch => ch != '%' && ch != ','))))

/-- Merge/key columns of the pipeline. -/
def mergeKeyCols : List String := ["日付", "agent_id"]

/-- The (日付, agent_id) key of a row. -/
def keyOf (r : Row) : Cell × Cell :=
  (getCellD r "日付", getCellD r "agent_id")

/-- Column resolution of _extract_metric_series: an exactly-named column wins;
otherwise the unique non-base column; otherwise an ambiguous-schema error
listing the candidates. -/
def resolveMetricCol (cols : List String) (metric : String) : Except ExtractErr String :=
  if metric ∈ cols then .ok metric
  else if (cols.filter (fun c => c ∉ BASE_COLS)).length = 1 then
    .ok ((cols.filter (fun c => c ∉ BASE_COLS)).headD "")
  else .error (.ambiguous metric (cols.filter (fun c => c ∉ BASE_COLS)))

/-- The selected-and-renamed (日付, agent_id, metric) table of
_extract_metric_series, with the value column coerced to numbers. -/
def extractOut (df : Frame) (metric mc : String) : Frame :=
  { cols := ["日付", "agent_id", metric]
    rows := df.rows.map (fun r =>
      [("日付", getCellD r "日付"), ("agent_id", getCellD r "agent_id"),
       (metric, match toNumericSeries (getCellD r mc) with
                | some q => Cell.n q
                | none => Cell.blank)]) }

/-- pandas duplicated(keep=False) over the key list: the keys, in row order,
that occur at least twice. -/
def dupFlagged (keys : List (Cell × Cell)) : List (Cell × Cell) :=
  keys.filter (fun k => 2 ≤ keys.count k)

/-- Tail of _extract_metric_series once the value column `mc` is resolved:
build the output table, then fail on any duplicated (日付, agent_id) key with
a five-row sample of the offending keys. -/
def extractFromCol (df : Frame) (metric mc : String) : Except ExtractErr Frame :=
  if (dupFlagged ((extractOut df metric mc).rows.map keyOf)).isEmpty then
    .ok (extractOut df metric mc)
  else
    .error (.dupKeys metric ((dupFlagged ((extractOut df metric mc).rows.map keyOf)).take 5))

/-- main.py _extract_metric_series. -/
def extractMetricSeries (raw : Frame) (metric : String) : Except ExtractErr Frame :=
  match normalizeCommonColumns raw with
  | .error e => .error e
  | .ok df =>
    match resolveMetricCol df.cols metric with
    | .error e => .error e
    | .ok mc => extractFromCol df metric mc

/-- Errors raised by _build_fact_daily_and_long and its merges. -/
inductive BuildErr where
  | noCPD
  | extractE (e : ExtractErr)
  | mergeCardinality (leftSide : Bool)
  | columnOverlap
deriving DecidableEq, Repr

/-- pandas df.merge(on=[日付, agent_id], how="left", validate="one_to_one"):
fails unless the key pairs are unique on both sides; each left row is kept
exactly once and gains the right-hand non-key columns (cell value from the
matching right row, blank when unmatched).  A right-hand non-key column whose
name already occurs on the left is rejected here: pandas would suffix both
copies, after which the melt on BASE_COLS in the builder raises anyway, so
the build as a whole fails in either semantics. -/
def mergeOneToOne (left right : Frame) : Except BuildErr Frame :=
  if (left.rows.map keyOf).Nodup then
    if (right.rows.map keyOf).Nodup then
      if (right.cols.filter (fun c => c ∉ mergeKeyCols)).any (fun c => c ∈ left.cols) then
        .error .columnOverlap
      else
        .ok { cols := left.cols ++ right.cols.filter (fun c => c ∉ mergeKeyCols)
              rows := left.rows.map (fun lr =>
                lr ++ (right.cols.filter (fun c => c ∉ mergeKeyCols)).map (fun c =>
                  (c, match right.rows.find? (fun rr => keyOf rr = keyOf lr) with
                      | some rr => getCellD rr c
                      | none => Cell.blank))) }
    else .error (.mergeCardinality false)
  else .error (.mergeCardinality true)

/-- df[cs]: keep the listed columns, in order. -/
def selectCols (cs : List String) (f : Frame) : Frame :=
  { cols := cs
    rows := f.rows.map (fun r => cs.map (fun c => (c, getCellD r c))) }

/-- One iteration of the metric loop in _build_fact_daily_and_long:
extract the metric series and left-join it onto the accumulating table. -/
def buildStep (acc : Except BuildErr Frame) (p : String × Frame) : Except BuildErr Frame :=
  match acc with
  | .error e => .error e
  | .ok fd =>
    match extractMetricSeries p.2 p.1 with
    | .error e => .error (.extractE e)
    | .ok mdf => mergeOneToOne fd mdf

/-- One melted row: the base columns of the source row, the metric name, the
actual value, the as-of stamp, and work_flag = 0 exactly when the string-cast,
stripped 勤務区分 cell is 休み. -/
def meltRow (asOf m : String) (r : Row) : Row :=
  BASE_COLS.map (fun c => (c, getCellD r c)) ++
    [("metric", Cell.s m), ("actual", getCellD r m),
     ("as_of_date", Cell.s asOf),
     ("work_flag",
      Cell.n (if pyStrip (cellStr (getCellD r "勤務区分")) = "休み" then 0 else 1))]

/-- The melt of fact_daily into fact_long plus the as_of_date stamp and the
work_flag column: one block of rows per metric. -/
def meltAndFlag (fd : Frame) (metricNames : List String) (asOf : String) : Frame :=
  { cols := BASE_COLS ++ ["metric", "actual", "as_of_date", "work_flag"]
    rows := metricNames.flatMap (fun m => fd.rows.map (meltRow asOf m)) }

/-- main.py _build_fact_daily_and_long.  `rawByMetric` models the Python dict
of raw tables keyed by metric name (unique keys, insertion order). -/
def buildFactDailyAndLong (rawByMetric : List (String × Frame)) (asOf : String) :
    Except BuildErr (Frame × Frame) :=
  match rawByMetric.find? (fun p => p.1 = "CPD") with
  | none => .error .noCPD
  | some cpdPair =>
    match normalizeCommonColumns cpdPair.2 with
    | .error e => .error (.extractE e)
    | .ok base =>
      match rawByMetric.foldl buildStep (.ok (selectCols BASE_COLS base)) with
      | .error e => .error e
      | .ok factDaily => .ok (factDaily, meltAndFlag factDaily (rawByMetric.map Prod.fst) asOf)

/-- summary.py FIXED_TARGETS (total function; queried only on the six KPIs). -/
def fixedTargets : String → ℚ
  | "CPH" => 4
  | "AHT" => 900
  | "ATT" => 750
  | "ACW" => 250
  | "着座比率" => 9/10
  | "稼働率" => 97/100
  | _ => 0

/-- summary.py _achievement on the Option-ℚ float model: NaN for a non-finite
operand or a zero target; for lower-is-better metrics target/actual with NaN
at zero actual, otherwise actual/target. -/
def achievement (actual target : Option ℚ) (lower : Bool) : Option ℚ :=
  match actual, target with
  | some a, some t =>
    if t = 0 then none
    else if lower then (if a = 0 then none else some (t / a))
    else some (a / t)
  | _, _ => none

/-- summary.py _as_ratio: absorb 0-1 fractions and 0-100 percentages, with the
fixed 1.5 cutoff; NaN propagates. -/
def ratioNorm (x : Option ℚ) : Option ℚ :=
  match x with
  | none => none
  | some v => some (if 3/2 < v then v / 100 else v)

/-- Left-pad a digit string with zeros to width d. -/
def padZeros (s : String) (d : ℕ) : String :=
  String.mk (List.replicate (d - s.length) '0') ++ s

/-- Decimal rendering of a scaled natural: integer part, then d digits. -/
def natDecStr (n : ℕ) (d : ℕ) : String :=
  toString (n / 10 ^ d) ++ (if d = 0 then "" else "." ++ padZeros (toString (n % 10 ^ d)) d)

/-- Python fixed-point float formatting f-string with d decimals, modelled with
round-to-nearest on the exact rational value. -/
def fmtFixed (d : ℕ) (q : ℚ) : String :=
  if round (q * (10 ^ d : ℚ)) < 0 then "-" ++ natDecStr (round (q * (10 ^ d : ℚ))).natAbs d
  else natDecStr (round (q * (10 ^ d : ℚ))).toNat d

/-- summary.py _pct: one-decimal percentage, n/a for non-finite. -/
def pct (x : Option ℚ) : String :=
  match x with
  | none => "n/a"
  | some q => fmtFixed 1 (q * 100) ++ "%"

/-- summary.py _fmt_num. -/
def fmtNum (x : Option ℚ) (d : ℕ) : String :=
  match x with
  | none => "n/a"
  | some q => fmtFixed d q

/-- Mean with NaN skipped (pandas Series.mean); NaN when no finite value. -/
def meanOpt (xs : List (Option ℚ)) : Option ℚ :=
  let v := xs.filterMap id
  if v.isEmpty then none else some (v.sum / (v.length : ℚ))

/-- The date-cast of generate_summary: df[日付] = df[日付].astype(str).str.strip(). -/
def castDateRow (r : Row) : Row :=
  r.map (fun kv => if kv.1 = "日付" then (kv.1, Cell.s (pyStrip (cellStr kv.2))) else kv)

/-- The date filter of generate_summary: cast the 日付 column to stripped
strings, keep the rows equal to the stripped as-of date. -/
def dateFilteredRows (f : Frame) (asOf : String) : List Row :=
  (f.rows.map castDateRow).filter (fun r => cellStr (getCellD r "日付") = pyStrip asOf)

/-- Numeric column of the filtered rows via _to_num, NaN-filled when absent. -/
def numColOrNaN (cols : List String) (rows : List Row) (c : String) : Option ℚ :=
  if c ∈ cols then meanOpt (rows.map (fun r => toNumCell (getCellD r c))) else none

/-- The AHT/ATT/ACW fragment builder one_lower_metric of generate_summary. -/
def oneLowerMetric (cols : List String) (rows : List Row) (nm : String) : String :=
  let act := numColOrNaN cols rows nm
  let tgt := fixedTargets nm
  let rate := achievement act (some tgt) true
  let actTxt := match act with
    | none => "n/a"
    | some a => fmtFixed 0 a
  nm ++ " " ++ actTxt ++ "/" ++ fmtFixed 0 tgt ++ "(" ++ pct rate ++ ")"

/-- summary.py generate_summary: filter to the as-of date, then render the
five KPI lines (CPD sums and headcount, CPH, the three lower-is-better time
metrics, and the two occupancy percentages), degrading per block when columns
are missing. -/
def generateSummary (factDaily : Frame) (asOfDate : String) : String :=
  if factDaily.rows.isEmpty || factDaily.cols.isEmpty then "データがありません。"
  else if "日付" ∉ factDaily.cols then "要約生成不可：列不足 [\x27日付\x27]"
  else
    let targetDate := pyStrip asOfDate
    let rows := dateFilteredRows factDaily asOfDate
    if rows.isEmpty then targetDate ++ " のデータが見つかりません（日付フィルタ後0件）"
    else
      let cols := factDaily.cols
      let line12 : String × String :=
        if "CPD" ∈ cols ∧ "CPD目標" ∈ cols then
          let pairs := rows.map (fun r => (toNumCell (getCellD r "CPD"), toNumCell (getCellD r "CPD目標")))
          let masked := pairs.filter (fun p => p.2.isSome)
          let targetN := masked.length
          let actSum : ℚ := (masked.filterMap Prod.fst).sum
          let planSum : ℚ := (masked.filterMap Prod.snd).sum
          let rate : Option ℚ := if planSum = 0 then none else some (actSum / planSum)
          let hitN := (masked.filter (fun p =>
            match p.1, p.2 with
            | some a, some t => decide (t ≤ a)
            | _, _ => false)).length
          let missN := targetN - hitN
          let hitRate : Option ℚ := if targetN = 0 then none else some ((hitN : ℚ) / (targetN : ℚ))
          ("1) 受電実績：CPD " ++ fmtFixed 0 actSum ++ " / 計画 " ++ fmtFixed 0 planSum ++
             "（達成率 " ++ pct rate ++ "）",
           "2) CPD未達（人数）：未達 " ++ toString missN ++ "人 / 対象 " ++ toString targetN ++
             "人（達成者率 " ++ pct hitRate ++ "）")
        else ("1) 受電実績：CPD（列不足で集計不可）", "2) CPD未達（人数）：（列不足で集計不可）")
      let cphAct := numColOrNaN cols rows "CPH"
      let cphRate := achievement cphAct (some (fixedTargets "CPH")) false
      let line3 := "3) 生産性：CPH " ++ fmtNum cphAct 2 ++ " / 目標 " ++ fmtFixed 2 (fixedTargets "CPH") ++
        "（達成率 " ++ pct cphRate ++ "）"
      let line4 := "4) 時間系：" ++ oneLowerMetric cols rows "AHT" ++ " / " ++
        oneLowerMetric cols rows "ATT" ++ " / " ++ oneLowerMetric cols rows "ACW"
      let seatAct := ratioNorm (numColOrNaN cols rows "着座比率")
      let seatRate := achievement seatAct (some (fixedTargets "着座比率")) false
      let occAct := ratioNorm (numColOrNaN cols rows "稼働率")
      let occRate := achievement occAct (some (fixedTargets "稼働率")) false
      let line5 := "5) 稼働系：着座 " ++ pct seatAct ++ "/" ++ pct (some (fixedTargets "着座比率")) ++
        "(" ++ pct seatRate ++ ")" ++ " / 稼働 " ++ pct occAct ++ "/" ++
        pct (some (fixedTargets "稼働率")) ++ "(" ++ pct occRate ++ ")"
      String.intercalate "\n" [line12.1, line12.2, line3, line4, line5]

/-- A Python exception observed by the endpoint handler: type name + message. -/
structure PyExc where
  ty : String
  msg : String
deriving DecidableEq, Repr

/-- Process environment: variable name to value (absent = unset). -/
abbrev Env := List (String × String)

/-- os.environ.get. -/
def envGet (env : Env) (k : String) : Option String :=
  match env with
  | [] => none
  | (a, v) :: t => if a = k then some v else envGet t k

/-- Python truth test `not os.environ.get(k)`: unset or empty. -/
def envBlank (env : Env) (k : String) : Bool :=
  match envGet env k with
  | none => true
  | some v => v = ""

/-- Python list.__str__ of the duplicate-key sample records (dicts). -/
def cellPyRepr : Cell → String
  | .s v => "\x27" ++ v ++ "\x27"
  | .n q => ratStr q
  | .blank => "nan"

/-- Python error type of a builder failure (ValueError from the extraction
checks, pandas MergeError from the one-to-one validation, KeyError from the
melt after pandas would have suffixed an overlapping column). -/
def buildErrTy : BuildErr → String
  | .noCPD => "ValueError"
  | .extractE _ => "ValueError"
  | .mergeCardinality _ => "MergeError"
  | .columnOverlap => "KeyError"

/-- Message of a builder failure, mirroring the Python strings. -/
def buildErrMsg : BuildErr → String
  | .noCPD => "CPD.xlsx is required as base but not provided."
  | .extractE (.schema missing found) =>
      "Missing base columns: " ++ pyStrListRepr missing ++ ". found=" ++ pyStrListRepr found
  | .extractE (.ambiguous metric cands) =>
      "Cannot uniquely detect metric column for metric=" ++ metric ++
        ". candidates=" ++ pyStrListRepr cands
  | .extractE (.dupKeys metric sample) =>
      "Duplicate keys in metric=" ++ metric ++ " on (日付,agent_id). sample=[" ++
        String.intercalate ", " (sample.map (fun k =>
          "\x7b\x27日付\x27: " ++ cellPyRepr k.1 ++ ", \x27agent_id\x27: " ++ cellPyRepr k.2 ++ "\x7d")) ++ "]"
  | .mergeCardinality true => "Merge keys are not unique in left dataset; not a one-to-one merge"
  | .mergeCardinality false => "Merge keys are not unique in right dataset; not a one-to-one merge"
  | .columnOverlap => "value_vars/id_vars are not present in the DataFrame after suffixing"

/-- Python int() acceptability of a string (sign + digits after stripping). -/
def isPyIntStr (s : String) : Bool :=
  let cs := (pyStrip s).toList
  let ds := match cs with
    | '-' :: t => t
    | '+' :: t => t
    | _ => cs
  !ds.isEmpty && ds.all Char.isDigit

/-- The environment checks at the top of _send_mail_with_attachment: SMTP_PORT
must parse as an int, host/user/pass/recipients must be set, and the
comma-separated recipient list must be non-empty. -/
def sendMailEnvCheck (env : Env) : Except PyExc Unit :=
  let portStr := (envGet env "SMTP_PORT").getD "587"
  if ¬ isPyIntStr portStr then
    .error ⟨"ValueError", "invalid literal for int() with base 10: " ++ portStr⟩
  else
    let missing := ["SMTP_HOST", "SMTP_USER", "SMTP_PASS", "MAIL_TO"].filter (envBlank env)
    if missing ≠ [] then .error ⟨"RuntimeError", "Missing env for mail: " ++ pyStrListRepr missing⟩
    else
      let toList := (((envGet env "MAIL_TO").getD "").split (fun c => c = ',')).map pyStrip
      if toList.filter (fun x => x ≠ "") = [] then .error ⟨"RuntimeError", "MAIL_TO is empty"⟩
      else .ok ()

/-- Outcomes of the external collaborators for one invocation (Drive client
construction, folder lookup, folder listing, downloads/parsing, template
write-back, an exception inside generate_summary, SMTP transport). -/
structure World where
  svc : Except PyExc Unit
  dailyFolder : Option String
  children : List (String × String)
  downloadExc : Option PyExc
  fileTable : String → Frame
  phase3Exc : Option PyExc
  summaryExc : Option PyExc
  smtpExc : Option PyExc

/-- The in-process lock map and success ledger (RUN_LOCK / RUN_SUCCESS);
times in integer seconds, the success record abbreviated to the run id. -/
structure RunState where
  locks : List (String × ℤ)
  success : List (String × String)
deriving DecidableEq, Repr

/-- Response body fields referenced by the verified properties. -/
structure RespBody where
  result : String
  errType : Option String
  errMsg : Option String
deriving DecidableEq, Repr

/-- Endpoint response: an HTTPException or a JSON body (status 200). -/
inductive Resp where
  | httpErr (status : ℕ) (detail : String)
  | jsonOk (b : RespBody)
deriving DecidableEq, Repr

/-- Externally visible side effects of one invocation: whether any Drive call
was made, and the body of the sent mail, when one was sent. -/
structure Effects where
  driveAccessed : Bool
  mailSent : Option String
deriving DecidableEq, Repr

/-- main.py LOCK_TTL_SECONDS. -/
def LOCK_TTL_SECONDS : ℤ := 1800

/-- The TTL sweep over RUN_LOCK: drop entries older than the TTL. -/
def sweepLocks (now : ℤ) (l : List (String × ℤ)) : List (String × ℤ) :=
  l.filter (fun p => now - p.2 ≤ LOCK_TTL_SECONDS)

/-- Assoc-list lookup for the lock map and ledger. -/
def lookupStr {β : Type} (k : String) : List (String × β) → Option β
  | [] => none
  | (a, v) :: t => if a = k then some v else lookupStr k t

/-- dict.pop(k, None): drop the entry for `k`. -/
def popKey {β : Type} (k : String) (l : List (String × β)) : List (String × β) :=
  l.filter (fun p => p.1 ≠ k)

/-- The as-of date: the stripped target parameter when truthy, else yesterday
in JST (passed in as a pure value). -/
def asOfOf (targetDate : Option String) (yesterday : String) : String :=
  match targetDate with
  | some s => if s = "" then yesterday else pyStrip s
  | none => yesterday

/-- The one-line substitute summary built by the caller when generate_summary
raises (main.py lines 437-441). -/
def summaryNotice (e : PyExc) : String :=
  "要約生成に失敗しました: " ++ e.ty ++ ": " ++ e.msg

/-- The try/except around generate_summary: the world says whether the real
generate_summary raised; if so the notice is substituted. -/
def summaryStep (w : World) (factDaily : Frame) (asOf : String) : String :=
  match w.summaryExc with
  | some e => summaryNotice e
  | none => generateSummary factDaily asOf

/-- Outcome of the try block of run_daily_close. -/
structure TryOut where
  resp : RespBody
  succAdd : Option (String × String)
  driveAccessed : Bool
  mailSent : Option String
deriving Repr

/-- A caught exception turned into the result=failed JSON body. -/
def failedOut (ty msg : String) (accessed : Bool) : TryOut :=
  ⟨⟨"failed", some ty, some msg⟩, none, accessed, none⟩

/-- The tail of the try block from the mail send on: the environment checks
of _send_mail_with_attachment, then the SMTP transport; on success the run is
recorded in the ledger and the built mail body is sent. -/
def mailPhase (env : Env) (w : World) (asOf runId : String) (mailBody : String) : TryOut :=
  match sendMailEnvCheck env with
  | .error e => failedOut e.ty e.msg true
  | .ok _ =>
    match w.smtpExc with
    | some e => failedOut e.ty e.msg true
    | none => ⟨⟨"success", none, none⟩, some (asOf, runId), true, some mailBody⟩

/-- The try block of run_daily_close, with the summary text supplied as a
function of the built daily fact table (so that the independence of the mail
send from the summary content is a statement about this definition). -/
def tryBodyWith (env : Env) (w : World) (asOf runId : String)
    (summaryOf : Frame → String) : TryOut :=
  if envBlank env "GCP_SA_JSON" then failedOut "RuntimeError" "Missing env: GCP_SA_JSON" false
  else
    match w.svc with
    | .error e => failedOut e.ty e.msg false
    | .ok _ =>
      match w.dailyFolder with
      | none => ⟨⟨"input_not_ready", none, none⟩, none, true, none⟩
      | some _ =>
        if REQUIRED_FILES.filter (fun n =>
            n ∉ (w.children.filter
              (fun c => c.2 ≠ "application/vnd.google-apps.folder")).map Prod.fst) ≠ [] then
          ⟨⟨"input_not_ready", none, none⟩, none, true, none⟩
        else
          match w.downloadExc with
          | some e => failedOut e.ty e.msg true
          | none =>
            match buildFactDailyAndLong
                (REQUIRED_FILES.map (fun fn => (metricByFilename fn, w.fileTable fn))) asOf with
            | .error be => failedOut (buildErrTy be) (buildErrMsg be) true
            | .ok facts =>
              match w.phase3Exc with
              | some e => failedOut e.ty e.msg true
              | none =>
                mailPhase env w asOf runId
                  (asOf ++ " の前日確定版レポートを生成しました。\n添付ファイルをご確認ください。\n\n▼ 5行要約\n" ++
                    summaryOf facts.1 ++ "\n")

/-- The try block as run: summary via the guarded summaryStep. -/
def tryBody (env : Env) (w : World) (asOf runId : String) : TryOut :=
  tryBodyWith env w asOf runId (fun fd => summaryStep w fd asOf)

/-- main.py run_daily_close: the two Drive env checks (HTTPException 500),
the already-sent ledger check, the TTL sweep, the running-lock check, lock
acquisition, the try block, and the finally that pops the lock. -/
def runDailyClose (env : Env) (w : World) (st : RunState)
    (targetDate : Option String) (yesterday : String) (now : ℤ) (runId : String) :
    Resp × RunState × Effects :=
  if envBlank env "DRIVE_INPUT_FOLDER_ID" then
    (.httpErr 500 "Missing env: DRIVE_INPUT_FOLDER_ID", st, ⟨false, none⟩)
  else if envBlank env "DRIVE_TEMPLATE_FILE_ID" then
    (.httpErr 500 "Missing env: DRIVE_TEMPLATE_FILE_ID", st, ⟨false, none⟩)
  else
    let asOf := asOfOf targetDate yesterday
    match lookupStr asOf st.success with
    | some _ => (.jsonOk ⟨"already_sent", none, none⟩, st, ⟨false, none⟩)
    | none =>
      let locks1 := sweepLocks now st.locks
      match lookupStr asOf locks1 with
      | some _ => (.jsonOk ⟨"running", none, none⟩, ⟨locks1, st.success⟩, ⟨false, none⟩)
      | none =>
        let t := tryBody env w asOf runId
        (.jsonOk t.resp,
         ⟨popKey asOf ((asOf, now) :: locks1),
          match t.succAdd with
          | some p => p :: st.success
          | none => st.success⟩,
         ⟨t.driveAccessed, t.mailSent⟩)

deriving instance DecidableEq for Except

/-- A well-formed one-row base input (CPD.xlsx contents). -/
def row1 : Row :=
  [("日付", Cell.s "2025-06-01"), ("agent_id", Cell.s "A001"), ("氏名", Cell.s "X"),
   ("勤務区分", Cell.s "出勤"), ("実働時間(h)", Cell.n 8), ("CPD目標", Cell.n 50)]

/-- A well-formed one-row raw metric table for `metric` with value `v`. -/
def mkInputFrame (metric : String) (v : ℚ) : Frame :=
  ⟨BASE_COLS ++ [metric], [row1 ++ [(metric, Cell.n v)]]⟩

/-- Concrete CPD raw table. -/
def cpdF : Frame := mkInputFrame "CPD" 40

/-- A raw-table mapping containing only the base metric. -/
def raw1 : List (String × Frame) := [("CPD", cpdF)]

/-- The daily fact table the builder produces from raw1. -/
def daily1 : Frame := ⟨BASE_COLS ++ ["CPD"], [row1 ++ [("CPD", Cell.n 40)]]⟩

/-- The long fact table the builder produces from raw1. -/
def long1 : Frame :=
  ⟨BASE_COLS ++ ["metric", "actual", "as_of_date", "work_flag"],
   [row1 ++ [("metric", Cell.s "CPD"), ("actual", Cell.n 40),
             ("as_of_date", Cell.s "2025-06-01"), ("work_flag", Cell.n 1)]]⟩

/-- C4 counterexample: with a finite non-zero actual and a finite zero target,
a lower-is-better attainment is NaN in the code, while the claim as stated
requires the quotient target/actual (which is the finite value 0, not NaN). -/
theorem achievement_lower_target_zero_cex :
    achievement (some 5) (some 0) true = none ∧ some ((0 : ℚ) / 5) ≠ (none : Option ℚ) := by
  decide

/-- C4 (amended): for a lower-is-better metric the attainment rate is
target/actual, and it is NaN when the actual is zero, when the target is
zero, or when either operand is non-finite; actual=750, target=750 renders
as 100.0% and actual=900, target=750 renders as 83.3%. -/
theorem pct_eval (q : ℚ) (n : ℤ) (hn : round (q * 100 * (10 ^ 1 : ℚ)) = n) (h0 : 0 ≤ n) :
    pct (some q) = natDecStr n.toNat 1 ++ "%" := by
  simp only [pct, fmtFixed]
  rw [hn, if_neg (by omega)]

theorem achievement_lower_rule :
    (∀ a t : ℚ, a ≠ 0 → t ≠ 0 → achievement (some a) (some t) true = some (t / a))
    ∧ (∀ t : Option ℚ, achievement none t true = none)
    ∧ (∀ a : Option ℚ, achievement a none true = none)
    ∧ (∀ t : ℚ, achievement (some 0) (some t) true = none)
    ∧ (∀ a : ℚ, achievement (some a) (some 0) true = none)
    ∧ pct (achievement (some 750) (some 750) true) = "100.0%"
    ∧ pct (achievement (some 900) (some 750) true) = "83.3%" := by
  have h750 : achievement (some 750) (some 750) true = some 1 := by
    simp only [achievement]
    norm_num
  have h900 : achievement (some 900) (some 750) true = some (750 / 900) := by
    simp only [achievement]
    norm_num
  refine ⟨?_, ?_, ?_, ?_, ?_, ?_, ?_⟩
  · intro a t ha ht
    simp [achievement, ha, ht]
  · intro t
    simp [achievement]
  · intro a
    cases a <;> simp [achievement]
  · intro t
    by_cases ht : t = 0 <;> simp [achievement, ht]
  · intro a
    simp [achievement]
  · rw [h750, pct_eval 1 1000 (by norm_num [round_eq]) (by norm_num)]
    decide
  · rw [h900, pct_eval (750 / 900) 833 (by norm_num [round_eq]) (by norm_num)]
    decide

/-- C4 witness: the amended rule applied at actual=2, target=3. -/
theorem achievement_lower_rule_w :
    achievement (some 2) (some 3) true = some ((3 : ℚ) / 2) :=
  achievement_lower_rule.1 2 3 (by norm_num) (by norm_num)

/-- C9: the attainment computation is total and never divides by zero - it is
NaN exactly when an operand is non-finite, the target is zero, or (for a
lower-is-better metric) the actual is zero; otherwise it is the quotient of
the two finite operands, and the denominator is non-zero. -/
theorem achievement_total_no_div0 :
    ∀ (a t : Option ℚ) (lower : Bool),
      (achievement a t lower = none ↔
        a = none ∨ t = none ∨ t = some 0 ∨ (lower = true ∧ a = some 0))
      ∧ (∀ x y : ℚ, a = some x → t = some y → achievement a t lower ≠ none →
          achievement a t lower = some (if lower then y / x else x / y)
            ∧ (if lower then x else y) ≠ 0) := by
  intro a t lower
  rcases a with _ | x
  · exact ⟨by simp [achievement], fun x y hx => by simp at hx⟩
  · rcases t with _ | y
    · exact ⟨by simp [achievement], fun x' y' _ hy => by simp at hy⟩
    · by_cases hy : y = 0
      · subst hy
        refine ⟨by simp [achievement], ?_⟩
        intro x' y' hx' hy' hne
        exact absurd (by simp [achievement]) hne
      · cases lower with
        | false =>
          refine ⟨by simp [achievement, hy], ?_⟩
          intro x' y' hx' hy' hne
          simp only [Option.some.injEq] at hx' hy'
          subst hx'
          subst hy'
          simp [achievement, hy]
        | true =>
          by_cases hx : x = 0
          · subst hx
            refine ⟨by simp [achievement, hy], ?_⟩
            intro x' y' hx' hy' hne
            exact absurd (by simp [achievement, hy]) hne
          · refine ⟨by simp [achievement, hy, hx], ?_⟩
            intro x' y' hx' hy' hne
            simp only [Option.some.injEq] at hx' hy'
            subst hx'
            subst hy'
            simp [achievement, hy, hx]

/-- C9 witness: the characterization applied at actual=2, target=3,
lower-is-better. -/
theorem achievement_total_no_div0_w :
    achievement (some 2) (some 3) true = some (if true then (3 : ℚ) / 2 else 2 / 3)
      ∧ (if true then (2 : ℚ) else 3) ≠ 0 :=
  (achievement_total_no_div0 (some 2) (some 3) true).2 2 3 rfl rfl (by decide)

/-- C5: a ratio input above the 1.5 cutoff is read as a percentage and divided
by 100, one at most 1.5 is kept as a fraction, NaN propagates, and the inputs
92 and 0.92 normalize identically, so they yield the same seating-ratio
attainment computation. -/
theorem ratio_input_normalization :
    (∀ v : ℚ, 3 / 2 < v → ratioNorm (some v) = some (v / 100))
    ∧ (∀ v : ℚ, v ≤ 3 / 2 → ratioNorm (some v) = some v)
    ∧ ratioNorm none = none
    ∧ ratioNorm (some 92) = ratioNorm (some (92 / 100))
    ∧ achievement (ratioNorm (some 92)) (some (fixedTargets "着座比率")) false
        = achievement (ratioNorm (some (92 / 100))) (some (fixedTargets "着座比率")) false := by
  have ha : ratioNorm (some 92) = some (92 / 100) := by
    simp only [ratioNorm]
    rw [if_pos (show (3 : ℚ) / 2 < 92 by norm_num)]
  have hb : ratioNorm (some (92 / 100)) = some (92 / 100) := by
    simp only [ratioNorm]
    rw [if_neg (show ¬ (3 : ℚ) / 2 < 92 / 100 by norm_num)]
  refine ⟨?_, ?_, rfl, by rw [ha, hb], by rw [ha, hb]⟩
  · intro v h
    simp [ratioNorm, h]
  · intro v h
    simp [ratioNorm, not_lt.mpr h]

/-- C5 witness: the percentage branch applied at input 2. -/
theorem ratio_input_normalization_w :
    ratioNorm (some 2) = some (2 / 100) :=
  ratio_input_normalization.1 2 (by norm_num)

/-- Lookup misses a list none of whose keys is `k`. -/
theorem lookupCell_eq_none (k : String) (l : Row) (h : ∀ p ∈ l, p.1 ≠ k) :
    lookupCell k l = none := by
  induction l with
  | nil => rfl
  | cons a t ih =>
    obtain ⟨a1, a2⟩ := a
    simp only [lookupCell]
    rw [if_neg (h (a1, a2) (List.mem_cons_self _ _))]
    exact ih fun p hp => h p (List.mem_cons_of_mem _ hp)

/-- Appending entries with fresh keys does not change a lookup. -/
theorem lookupCell_append (k : String) (l1 l2 : Row) (h : ∀ p ∈ l2, p.1 ≠ k) :
    lookupCell k (l1 ++ l2) = lookupCell k l1 := by
  induction l1 with
  | nil => simpa using lookupCell_eq_none k l2 h
  | cons a t ih =>
    obtain ⟨a1, a2⟩ := a
    simp only [List.cons_append, lookupCell]
    by_cases hk : a1 = k
    · rw [if_pos hk, if_pos hk]
    · rw [if_neg hk, if_neg hk]
      exact ih

/-- Lookup skips a prefix none of whose keys is `k`. -/
theorem lookupCell_append_left (k : String) (l1 l2 : Row) (h : ∀ p ∈ l1, p.1 ≠ k) :
    lookupCell k (l1 ++ l2) = lookupCell k l2 := by
  induction l1 with
  | nil => rfl
  | cons a t ih =>
    obtain ⟨a1, a2⟩ := a
    simp only [List.cons_append, lookupCell]
    rw [if_neg (h (a1, a2) (List.mem_cons_self _ _))]
    exact ih fun p hp => h p (List.mem_cons_of_mem _ hp)

/-- A column surviving the non-key filter differs from both merge keys. -/
theorem mem_extraCols_ne (rc : List String) (c : String)
    (hc : c ∈ rc.filter (fun c => c ∉ mergeKeyCols)) :
    c ≠ "日付" ∧ c ≠ "agent_id" := by
  have h := (List.mem_filter.mp hc).2
  have h2 := of_decide_eq_true h
  simp [mergeKeyCols] at h2
  exact h2

/-- A successful one-to-one left merge keeps the left rows' keys, in order,
and certifies that the left keys were unique. -/
theorem mergeOneToOne_keys (l r m : Frame) (h : mergeOneToOne l r = .ok m) :
    m.rows.map keyOf = l.rows.map keyOf ∧ (l.rows.map keyOf).Nodup := by
  unfold mergeOneToOne at h
  by_cases h1 : (l.rows.map keyOf).Nodup
  · rw [if_pos h1] at h
    refine ⟨?_, h1⟩
    by_cases h2 : (r.rows.map keyOf).Nodup
    · rw [if_pos h2] at h
      by_cases h3 : ((r.cols.filter (fun c => c ∉ mergeKeyCols)).any (fun c => c ∈ l.cols)) = true
      · rw [if_pos h3] at h
        simp at h
      · rw [if_neg h3] at h
        simp only [Except.ok.injEq] at h
        rw [← h]
        simp only []
        rw [List.map_map]
        apply List.map_congr_left
        intro lr _
        show keyOf (lr ++ _) = keyOf lr
        unfold keyOf getCellD
        rw [lookupCell_append, lookupCell_append]
        · intro p hp
          obtain ⟨c, hc, rfl⟩ := List.mem_map.mp hp
          exact (mem_extraCols_ne r.cols c hc).2
        · intro p hp
          obtain ⟨c, hc, rfl⟩ := List.mem_map.mp hp
          exact (mem_extraCols_ne r.cols c hc).1
    · rw [if_neg h2] at h
      simp at h
  · rw [if_neg h1] at h
    simp at h

/-- The metric loop carried over an error stays an error. -/
theorem foldl_buildStep_error (ps : List (String × Frame)) (e : BuildErr) :
    ps.foldl buildStep (.error e) = .error e := by
  induction ps with
  | nil => rfl
  | cons p t ih => simpa [buildStep] using ih

/-- A successful metric loop keeps the accumulating table's keys, in order. -/
theorem foldl_buildStep_keys (ps : List (String × Frame)) :
    ∀ fd final : Frame, ps.foldl buildStep (.ok fd) = .ok final →
      final.rows.map keyOf = fd.rows.map keyOf := by
  induction ps with
  | nil =>
    intro fd final h
    simp only [List.foldl_nil, Except.ok.injEq] at h
    rw [h]
  | cons p t ih =>
    intro fd final h
    rw [List.foldl_cons] at h
    cases hstep : buildStep (.ok fd) p with
    | error e =>
      rw [hstep, foldl_buildStep_error] at h
      simp at h
    | ok fd1 =>
      rw [hstep] at h
      have h1 := ih fd1 final h
      unfold buildStep at hstep
      cases hext : extractMetricSeries p.2 p.1 with
      | error e =>
        rw [hext] at hstep
        simp at hstep
      | ok mdf =>
        rw [hext] at hstep
        rw [h1, (mergeOneToOne_keys fd mdf fd1 hstep).1]

/-- A successful non-empty metric loop certifies the starting keys unique. -/
theorem foldl_buildStep_nodup (p : String × Frame) (ps : List (String × Frame))
    (fd final : Frame) (h : (p :: ps).foldl buildStep (.ok fd) = .ok final) :
    (fd.rows.map keyOf).Nodup := by
  rw [List.foldl_cons] at h
  cases hstep : buildStep (.ok fd) p with
  | error e =>
    rw [hstep, foldl_buildStep_error] at h
    simp at h
  | ok fd1 =>
    unfold buildStep at hstep
    cases hext : extractMetricSeries p.2 p.1 with
    | error e =>
      rw [hext] at hstep
      simp at hstep
    | ok mdf =>
      rw [hext] at hstep
      exact (mergeOneToOne_keys fd mdf fd1 hstep).2

/-- Selecting the base columns keeps each row's key. -/
theorem selectBase_keys (f : Frame) :
    (selectCols BASE_COLS f).rows.map keyOf = f.rows.map keyOf := by
  unfold selectCols
  rw [List.map_map]
  rfl

/-- C1: whenever the fact builder succeeds on a mapping containing the base
metric CPD, the daily fact table has the normalized base table's row count,
carries the base rows' (date, agent_id) keys in order, and those keys are
pairwise distinct - every per-metric left join preserved the rows. -/
theorem build_rowcount_and_keys (raw : List (String × Frame)) (asOf : String)
    (cpdPair : String × Frame) (daily long : Frame)
    (hcpd : raw.find? (fun p => p.1 = "CPD") = some cpdPair)
    (hok : buildFactDailyAndLong raw asOf = .ok (daily, long)) :
    ∃ base, normalizeCommonColumns cpdPair.2 = .ok base
      ∧ daily.rows.length = base.rows.length
      ∧ daily.rows.map keyOf = base.rows.map keyOf
      ∧ (daily.rows.map keyOf).Nodup := by
  unfold buildFactDailyAndLong at hok
  rw [hcpd] at hok
  simp only [] at hok
  cases hnorm : normalizeCommonColumns cpdPair.2 with
  | error e =>
    rw [hnorm] at hok
    simp at hok
  | ok base =>
    rw [hnorm] at hok
    simp only [] at hok
    cases hfold : raw.foldl buildStep (.ok (selectCols BASE_COLS base)) with
    | error e =>
      rw [hfold] at hok
      simp at hok
    | ok fd =>
      rw [hfold] at hok
      simp only [Except.ok.injEq, Prod.mk.injEq] at hok
      obtain ⟨hfd, hlong⟩ := hok
      have hkeys : daily.rows.map keyOf = base.rows.map keyOf := by
        rw [← hfd, foldl_buildStep_keys raw _ fd hfold, selectBase_keys]
      refine ⟨base, rfl, ?_, hkeys, ?_⟩
      · simpa using congrArg List.length hkeys
      · cases raw with
        | nil => simp at hcpd
        | cons p ps =>
          have hnd := foldl_buildStep_nodup p ps _ fd hfold
          rw [selectBase_keys] at hnd
          rw [hkeys]
          exact hnd

/-- C1 witness: the builder succeeds on the concrete one-row CPD-only input
and the conclusions hold there. -/
theorem build_rowcount_and_keys_w :
    ∃ daily long, buildFactDailyAndLong raw1 "2025-06-01" = .ok (daily, long)
      ∧ (daily.rows.map keyOf).Nodup ∧ daily.rows.length = 1 := by
  have hb : buildFactDailyAndLong raw1 "2025-06-01" = .ok (daily1, long1) := by decide
  obtain ⟨base, hn, hlen, hkeys, hnd⟩ :=
    build_rowcount_and_keys raw1 "2025-06-01" ("CPD", cpdF) daily1 long1 (by decide) hb
  exact ⟨daily1, long1, hb, hnd, by decide⟩

/-- Unfolding of the extractor once normalization succeeded. -/
theorem extractMetricSeries_norm_ok (raw df : Frame) (metric : String)
    (hn : normalizeCommonColumns raw = .ok df) :
    extractMetricSeries raw metric =
      match resolveMetricCol df.cols metric with
      | .error e => .error e
      | .ok mc => extractFromCol df metric mc := by
  unfold extractMetricSeries
  rw [hn]

/-- The selected metric table keeps each source row's key, in order. -/
theorem extractOut_keys (df : Frame) (metric mc : String) :
    (extractOut df metric mc).rows.map keyOf = df.rows.map keyOf := by
  unfold extractOut
  simp only []
  rw [List.map_map]
  rfl

/-- A key occurring at least twice makes the flagged list non-empty, and every
flagged key occurs at least twice. -/
theorem dupFlagged_props (keys : List (Cell × Cell)) (k0 : Cell × Cell)
    (hk : 2 ≤ keys.count k0) :
    dupFlagged keys ≠ [] ∧ ∀ k ∈ dupFlagged keys, 2 ≤ keys.count k := by
  constructor
  · have hmem : k0 ∈ keys := by
      by_contra hc
      rw [List.count_eq_zero_of_not_mem hc] at hk
      omega
    exact List.ne_nil_of_mem (List.mem_filter.mpr ⟨hmem, decide_eq_true hk⟩)
  · intro k hkf
    exact of_decide_eq_true (List.mem_filter.mp hkf).2

/-- The duplicate gate of the extractor fires whenever some key repeats. -/
theorem extractFromCol_dup (df : Frame) (metric mc : String) (k0 : Cell × Cell)
    (hk : 2 ≤ (df.rows.map keyOf).count k0) :
    ∃ sample, extractFromCol df metric mc = .error (.dupKeys metric sample)
      ∧ sample ≠ [] ∧ sample.length ≤ 5
      ∧ ∀ k ∈ sample, 2 ≤ (df.rows.map keyOf).count k := by
  have h := dupFlagged_props (df.rows.map keyOf) k0 hk
  refine ⟨(dupFlagged (df.rows.map keyOf)).take 5, ?_, ?_, List.length_take_le _ _, ?_⟩
  · unfold extractFromCol
    rw [extractOut_keys]
    rw [if_neg (fun he => h.1 (List.isEmpty_iff.mp he))]
  · cases hd : dupFlagged (df.rows.map keyOf) with
    | nil => exact absurd hd h.1
    | cons a t => simp
  · intro k hkt
    exact h.2 k (List.take_subset _ _ hkt)

/-- C2: once the value column is resolved, any repeated (date, agent_id) key
in a raw metric table makes extraction fail with a duplicate-key error whose
payload is a non-empty sample of at most five offending keys - regardless of
the metric values carried by the duplicated rows, which the gate never reads,
so duplicates are never merged or averaged. -/
theorem extract_duplicate_key_error (raw : Frame) (metric : String) (df : Frame) (mc : String)
    (hn : normalizeCommonColumns raw = .ok df)
    (hres : resolveMetricCol df.cols metric = .ok mc)
    (hdup : ∃ k, 2 ≤ (df.rows.map keyOf).count k) :
    ∃ sample, extractMetricSeries raw metric = .error (.dupKeys metric sample)
      ∧ sample ≠ [] ∧ sample.length ≤ 5
      ∧ ∀ k ∈ sample, 2 ≤ (df.rows.map keyOf).count k := by
  obtain ⟨k0, hk0⟩ := hdup
  obtain ⟨sample, hs, h1, h2, h3⟩ := extractFromCol_dup df metric mc k0 hk0
  refine ⟨sample, ?_, h1, h2, h3⟩
  rw [extractMetricSeries_norm_ok raw df metric hn, hres]
  exact hs

/-- A raw table whose two rows are fully identical (same key, same value). -/
def dupF : Frame :=
  ⟨BASE_COLS ++ ["AHT"],
   [row1 ++ [("AHT", Cell.n 100)], row1 ++ [("AHT", Cell.n 100)]]⟩

/-- C2 witness: extraction of the duplicated-key table fails with the
duplicate-key payload even though the duplicate values agree. -/
theorem extract_duplicate_key_error_w :
    ∃ sample, extractMetricSeries dupF "AHT" = .error (.dupKeys "AHT" sample)
      ∧ sample ≠ [] ∧ sample.length ≤ 5
      ∧ ∀ k ∈ sample, 2 ≤ (dupF.rows.map keyOf).count k :=
  extract_duplicate_key_error dupF "AHT" dupF "AHT" (by decide) (by decide)
    ⟨(Cell.s "2025-06-01", Cell.s "A001"), by decide⟩

/-- C3: the value column of a normalized raw table is resolved by first
taking an exactly-named column, else the unique column outside the base set,
and otherwise extraction fails with an ambiguous-schema error listing the
candidate columns; the resolved column is the one extraction then uses. -/
theorem extract_column_resolution (raw : Frame) (metric : String) (df : Frame)
    (hn : normalizeCommonColumns raw = .ok df) :
    (metric ∈ df.cols → resolveMetricCol df.cols metric = .ok metric)
    ∧ (∀ c, metric ∉ df.cols → df.cols.filter (fun x => x ∉ BASE_COLS) = [c] →
        resolveMetricCol df.cols metric = .ok c)
    ∧ (metric ∉ df.cols → (df.cols.filter (fun x => x ∉ BASE_COLS)).length ≠ 1 →
        extractMetricSeries raw metric
          = .error (.ambiguous metric (df.cols.filter (fun x => x ∉ BASE_COLS))))
    ∧ (∀ mc, resolveMetricCol df.cols metric = .ok mc →
        extractMetricSeries raw metric = extractFromCol df metric mc) := by
  refine ⟨?_, ?_, ?_, ?_⟩
  · intro h
    unfold resolveMetricCol
    rw [if_pos h]
  · intro c h hc
    unfold resolveMetricCol
    rw [if_neg h, hc]
    simp
  · intro h hl
    rw [extractMetricSeries_norm_ok raw df metric hn]
    unfold resolveMetricCol
    rw [if_neg h, if_neg hl]
  · intro mc hmc
    rw [extractMetricSeries_norm_ok raw df metric hn, hmc]

/-- A raw table with two non-base columns and no column named AHT. -/
def ambF : Frame := ⟨BASE_COLS ++ ["x", "y"], []⟩

/-- C3 witness: resolution on the ambiguous table fails listing candidates. -/
theorem extract_column_resolution_w :
    extractMetricSeries ambF "AHT"
      = .error (.ambiguous "AHT" (ambF.cols.filter (fun x => x ∉ BASE_COLS))) :=
  (extract_column_resolution ambF "AHT" ambF (by decide)).2.2.1 (by decide) (by decide)

/-- The work_flag cell of a melted row. -/
theorem meltRow_work_flag (asOf m : String) (r : Row) :
    getCellD (meltRow asOf m r) "work_flag"
      = Cell.n (if pyStrip (cellStr (getCellD r "勤務区分")) = "休み" then 0 else 1) := rfl

/-- The 勤務区分 cell of a melted row is the source row's. -/
theorem meltRow_shift (asOf m : String) (r : Row) :
    getCellD (meltRow asOf m r) "勤務区分" = getCellD r "勤務区分" := rfl

/-- C10: in every long-fact row the off-day check string-casts the shift cell,
so work_flag is 0 exactly when the trimmed cast equals the 休み sentinel; in
particular a missing (blank) shift cell - cast to the string nan - yields
work_flag 1. -/
theorem work_flag_missing_shift (raw : List (String × Frame)) (asOf : String)
    (daily long : Frame) (hok : buildFactDailyAndLong raw asOf = .ok (daily, long))
    (row : Row) (hrow : row ∈ long.rows) :
    (getCellD row "work_flag" = Cell.n 0 ↔ pyStrip (cellStr (getCellD row "勤務区分")) = "休み")
    ∧ (getCellD row "勤務区分" = Cell.blank → getCellD row "work_flag" = Cell.n 1) := by
  unfold buildFactDailyAndLong at hok
  cases hfind : raw.find? (fun p => p.1 = "CPD") with
  | none =>
    rw [hfind] at hok
    simp at hok
  | some cpdPair =>
    rw [hfind] at hok
    simp only [] at hok
    cases hnorm : normalizeCommonColumns cpdPair.2 with
    | error e =>
      rw [hnorm] at hok
      simp at hok
    | ok base =>
      rw [hnorm] at hok
      simp only [] at hok
      cases hfold : raw.foldl buildStep (.ok (selectCols BASE_COLS base)) with
      | error e =>
        rw [hfold] at hok
        simp at hok
      | ok fd =>
        rw [hfold] at hok
        simp only [Except.ok.injEq, Prod.mk.injEq] at hok
        obtain ⟨hfd, hlong⟩ := hok
        rw [← hlong] at hrow
        unfold meltAndFlag at hrow
        simp only [] at hrow
        obtain ⟨m, hm, hrow2⟩ := List.mem_flatMap.mp hrow
        obtain ⟨r, hr, rfl⟩ := List.mem_map.mp hrow2
        rw [meltRow_work_flag, meltRow_shift]
        constructor
        · by_cases hoff : pyStrip (cellStr (getCellD r "勤務区分")) = "休み"
          · rw [if_pos hoff]
            simp [hoff]
          · rw [if_neg hoff]
            simp [hoff]
        · intro hb
          rw [hb]
          decide

/-- C10 witness: the concrete build's long row (working shift 出勤) has
work_flag 1, via the characterization. -/
theorem work_flag_missing_shift_w :
    ∃ daily long row, buildFactDailyAndLong raw1 "2025-06-01" = .ok (daily, long)
      ∧ row ∈ long.rows
      ∧ (getCellD row "work_flag" = Cell.n 0
          ↔ pyStrip (cellStr (getCellD row "勤務区分")) = "休み") := by
  have hb : buildFactDailyAndLong raw1 "2025-06-01" = .ok (daily1, long1) := by decide
  have hr : (row1 ++ [("metric", Cell.s "CPD"), ("actual", Cell.n 40),
      ("as_of_date", Cell.s "2025-06-01"), ("work_flag", Cell.n 1)]) ∈ long1.rows := by decide
  exact ⟨daily1, long1, _, hb, hr,
    (work_flag_missing_shift raw1 "2025-06-01" daily1 long1 hb _ hr).1⟩

/-- Lookup misses a key that was popped. -/
theorem lookupStr_popKey {β : Type} (k : String) (l : List (String × β)) :
    lookupStr k (popKey k l) = none := by
  induction l with
  | nil => rfl
  | cons a t ih =>
    obtain ⟨a1, a2⟩ := a
    by_cases hk : a1 = k
    · simpa [popKey, List.filter_cons, hk] using ih
    · simpa [popKey, List.filter_cons, hk, lookupStr] using ih

/-- C8: every invocation that acquires the lock - the Drive env checks pass,
the date is not in the success ledger, and no unexpired lock exists for it -
ends with no lock entry for that date, on the success, input-not-ready and
failure exit paths alike. -/
theorem lock_cleared_every_exit (env : Env) (w : World) (st : RunState)
    (targetDate : Option String) (yesterday : String) (now : ℤ) (runId : String)
    (h1 : envBlank env "DRIVE_INPUT_FOLDER_ID" = false)
    (h2 : envBlank env "DRIVE_TEMPLATE_FILE_ID" = false)
    (h3 : lookupStr (asOfOf targetDate yesterday) st.success = none)
    (h4 : lookupStr (asOfOf targetDate yesterday) (sweepLocks now st.locks) = none) :
    lookupStr (asOfOf targetDate yesterday)
      ((runDailyClose env w st targetDate yesterday now runId).2.1).locks = none := by
  unfold runDailyClose
  simp only [h1, h2, Bool.false_eq_true, if_false, h3, h4]
  exact lookupStr_popKey _ _

/-- The environment of the C8 witness: both Drive变数 set. -/
def env8 : Env := [("DRIVE_INPUT_FOLDER_ID", "fid"), ("DRIVE_TEMPLATE_FILE_ID", "tid")]

/-- A world whose Drive client construction succeeds, everything else empty. -/
def world0 : World := ⟨.ok (), none, [], none, fun _ => ⟨[], []⟩, none, none, none⟩

/-- The empty lock/ledger state. -/
def st0 : RunState := ⟨[], []⟩

/-- C8 witness: a concrete acquiring invocation ends without the lock. -/
theorem lock_cleared_every_exit_w :
    lookupStr (asOfOf (some "2025-06-01") "x")
      ((runDailyClose env8 world0 st0 (some "2025-06-01") "x" 0 "rid").2.1).locks = none :=
  lock_cleared_every_exit env8 world0 st0 (some "2025-06-01") "x" 0 "rid"
    (by decide) (by decide) (by decide) (by decide)

/-- The environment of the C7 counterexample: Drive and credential variables
set, all SMTP variables but SMTP_HOST set. -/
def env7 : Env :=
  [("DRIVE_INPUT_FOLDER_ID", "fid"), ("DRIVE_TEMPLATE_FILE_ID", "tid"),
   ("GCP_SA_JSON", "sa"), ("SMTP_USER", "u"), ("SMTP_PASS", "p"), ("MAIL_TO", "a@b")]

/-- The world of the C7 counterexample: the daily folder exists, all seven
required files are present and parse into well-formed one-row tables, and
every external step up to the mail transport succeeds. -/
def world7 : World :=
  ⟨.ok (), some "folder", REQUIRED_FILES.map (fun n => (n, "application/vnd.ms-excel")),
   none, fun fn => mkInputFrame (metricByFilename fn) 40, none, none, none⟩

/-- C7 counterexample: with the Drive env set but SMTP_HOST unset - a missing
required credential, i.e. a configuration error - the run performs the Drive
I/O and builds the report, then fails at send time with a status-200
result=failed body instead of an HTTP 500, so the claim fails as stated. -/
theorem config_error_smtp_not_500_cex :
    envBlank env7 "SMTP_HOST" = true
    ∧ (runDailyClose env7 world7 st0 (some "2025-06-01") "x" 0 "rid").1
        = .jsonOk ⟨"failed", some "RuntimeError",
            some "Missing env for mail: [\x27SMTP_HOST\x27]"⟩
    ∧ ((runDailyClose env7 world7 st0 (some "2025-06-01") "x" 0 "rid").2.2).driveAccessed
        = true := by
  refine ⟨by decide, by decide, by decide⟩

/-- C7 (amended): only the two Drive env checks are HTTP-500-fatal and abort
before any I/O and any lock-state change; a missing Google credential
(GCP_SA_JSON) also aborts before any Drive I/O but is reported as a
status-200 result=failed body; missing mail env is detected only at send
time, after I/O (see the counterexample). -/
theorem drive_env_checks_fatal_early (env : Env) (w : World) (st : RunState)
    (targetDate : Option String) (yesterday : String) (now : ℤ) (runId : String) :
    (envBlank env "DRIVE_INPUT_FOLDER_ID" = true →
      runDailyClose env w st targetDate yesterday now runId
        = (.httpErr 500 "Missing env: DRIVE_INPUT_FOLDER_ID", st, ⟨false, none⟩))
    ∧ (envBlank env "DRIVE_INPUT_FOLDER_ID" = false →
       envBlank env "DRIVE_TEMPLATE_FILE_ID" = true →
      runDailyClose env w st targetDate yesterday now runId
        = (.httpErr 500 "Missing env: DRIVE_TEMPLATE_FILE_ID", st, ⟨false, none⟩))
    ∧ (envBlank env "DRIVE_INPUT_FOLDER_ID" = false →
       envBlank env "DRIVE_TEMPLATE_FILE_ID" = false →
       envBlank env "GCP_SA_JSON" = true →
       lookupStr (asOfOf targetDate yesterday) st.success = none →
       lookupStr (asOfOf targetDate yesterday) (sweepLocks now st.locks) = none →
      (runDailyClose env w st targetDate yesterday now runId).1
          = .jsonOk ⟨"failed", some "RuntimeError", some "Missing env: GCP_SA_JSON"⟩
        ∧ (runDailyClose env w st targetDate yesterday now runId).2.2 = ⟨false, none⟩) := by
  refine ⟨?_, ?_, ?_⟩
  · intro h
    unfold runDailyClose
    simp [h]
  · intro h1 h2
    unfold runDailyClose
    simp [h1, h2]
  · intro h1 h2 hg h3 h4
    unfold runDailyClose
    simp only [h1, h2, Bool.false_eq_true, if_false, h3, h4]
    unfold tryBody tryBodyWith
    simp [hg, failedOut]

/-- C7 witness: the amended rule applied to an empty environment. -/
theorem drive_env_checks_fatal_early_w :
    runDailyClose [] world0 st0 (some "2025-06-01") "x" 0 "rid"
      = (.httpErr 500 "Missing env: DRIVE_INPUT_FOLDER_ID", st0, ⟨false, none⟩) :=
  (drive_env_checks_fatal_early [] world0 st0 (some "2025-06-01") "x" 0 "rid").1 (by decide)

/-- The date cast of generate_summary turns the 日付 cell into its stripped
string form (a missing cell reads as blank on both sides, whose cast nan is
strip-invariant). -/
theorem castDateRow_date (r : Row) :
    cellStr (getCellD (castDateRow r) "日付") = pyStrip (cellStr (getCellD r "日付")) := by
  induction r with
  | nil => decide
  | cons a t ih =>
    obtain ⟨a1, a2⟩ := a
    simp only [castDateRow, List.map_cons]
    by_cases hk : a1 = "日付"
    · subst hk
      simp [getCellD, lookupCell, cellStr]
    · rw [if_neg hk]
      simp only [getCellD, lookupCell, if_neg hk]
      simpa [castDateRow, getCellD] using ih

/-- mailPhase ignores the mail body except for sending it: result, ledger
write, I/O flag and whether a mail is sent do not depend on the body. -/
theorem mailPhase_body_invariant (env : Env) (w : World) (asOf runId : String)
    (b1 b2 : String) :
    (mailPhase env w asOf runId b1).resp = (mailPhase env w asOf runId b2).resp
    ∧ (mailPhase env w asOf runId b1).succAdd = (mailPhase env w asOf runId b2).succAdd
    ∧ (mailPhase env w asOf runId b1).driveAccessed
        = (mailPhase env w asOf runId b2).driveAccessed
    ∧ (mailPhase env w asOf runId b1).mailSent.isSome
        = (mailPhase env w asOf runId b2).mailSent.isSome := by
  unfold mailPhase
  cases sendMailEnvCheck env with
  | error e => exact ⟨rfl, rfl, rfl, rfl⟩
  | ok u =>
    cases w.smtpExc with
    | some e => exact ⟨rfl, rfl, rfl, rfl⟩
    | none => exact ⟨rfl, rfl, rfl, rfl⟩

/-- The try block ignores the summary text except for embedding it in the
mail body. -/
theorem tryBodyWith_summary_invariant (env : Env) (w : World) (asOf runId : String)
    (s1 s2 : Frame → String) :
    (tryBodyWith env w asOf runId s1).resp = (tryBodyWith env w asOf runId s2).resp
    ∧ (tryBodyWith env w asOf runId s1).succAdd = (tryBodyWith env w asOf runId s2).succAdd
    ∧ (tryBodyWith env w asOf runId s1).driveAccessed
        = (tryBodyWith env w asOf runId s2).driveAccessed
    ∧ (tryBodyWith env w asOf runId s1).mailSent.isSome
        = (tryBodyWith env w asOf runId s2).mailSent.isSome := by
  unfold tryBodyWith
  by_cases hg : envBlank env "GCP_SA_JSON" = true
  · simp [hg]
  · simp only [hg, Bool.false_eq_true, if_false]
    cases w.svc with
    | error e => simp
    | ok u =>
      cases w.dailyFolder with
      | none => simp
      | some fid =>
        by_cases hmf : REQUIRED_FILES.filter (fun n =>
            n ∉ (w.children.filter
              (fun c => c.2 ≠ "application/vnd.google-apps.folder")).map Prod.fst) ≠ []
        · simp only [if_pos hmf]
          simp
        · simp only [if_neg hmf]
          cases w.downloadExc with
          | some e => simp
          | none =>
            cases buildFactDailyAndLong
                (REQUIRED_FILES.map (fun fn => (metricByFilename fn, w.fileTable fn))) asOf with
            | error be => simp
            | ok facts =>
              cases w.phase3Exc with
              | some e => simp
              | none => exact mailPhase_body_invariant env w asOf runId _ _

/-- The try block never reads summaryExc directly. -/
theorem tryBodyWith_world_summaryExc (env : Env) (w : World) (asOf runId : String)
    (s : Frame → String) (x : Option PyExc) :
    tryBodyWith env { w with summaryExc := x } asOf runId s
      = tryBodyWith env w asOf runId s := rfl

/-- C6: the summarizer filters rows by trimmed-string equality of the date
column against the trimmed as-of date and returns the fixed no-data message,
not an exception, when the filter leaves nothing; an exception inside
generate_summary is replaced by the caller with the one-line notice embedding
the error type and message, and the run's result, final state, I/O behaviour
and whether the mail is sent do not depend on such an exception - only the
sent body differs - so the summary step never prevents the email send. -/
theorem summary_filter_nodata_and_catch :
    (∀ (f : Frame) (asOf : String),
      dateFilteredRows f asOf
        = (f.rows.filter
            (fun r => pyStrip (cellStr (getCellD r "日付")) = pyStrip asOf)).map castDateRow)
    ∧ (∀ (f : Frame) (asOf : String),
        f.rows ≠ [] → f.cols ≠ [] → "日付" ∈ f.cols → dateFilteredRows f asOf = [] →
        generateSummary f asOf
          = pyStrip asOf ++ " のデータが見つかりません（日付フィルタ後0件）")
    ∧ (∀ (w : World) (fd : Frame) (asOf : String) (e : PyExc), w.summaryExc = some e →
        summaryStep w fd asOf = "要約生成に失敗しました: " ++ e.ty ++ ": " ++ e.msg)
    ∧ (∀ (env : Env) (w : World) (st : RunState) (targetDate : Option String)
        (yesterday : String) (now : ℤ) (runId : String) (x y : Option PyExc),
        (runDailyClose env { w with summaryExc := x } st targetDate yesterday now runId).1
          = (runDailyClose env { w with summaryExc := y } st targetDate yesterday now runId).1
        ∧ (runDailyClose env { w with summaryExc := x } st targetDate yesterday now runId).2.1
          = (runDailyClose env { w with summaryExc := y } st targetDate yesterday now runId).2.1
        ∧ ((runDailyClose env { w with summaryExc := x } st targetDate yesterday now runId).2.2).driveAccessed
          = ((runDailyClose env { w with summaryExc := y } st targetDate yesterday now runId).2.2).driveAccessed
        ∧ ((runDailyClose env { w with summaryExc := x } st targetDate yesterday now runId).2.2).mailSent.isSome
          = ((runDailyClose env { w with summaryExc := y } st targetDate yesterday now runId).2.2).mailSent.isSome) := by
  refine ⟨?_, ?_, ?_, ?_⟩
  · intro f asOf
    unfold dateFilteredRows
    rw [List.filter_map]
    congr 1
    apply List.filter_congr
    intro r _
    simp only [Function.comp_apply]
    rw [castDateRow_date]
  · intro f asOf h1 h2 h3 h4
    unfold generateSummary
    have hb1 : f.rows.isEmpty = false := by
      cases hr : f.rows with
      | nil => exact absurd hr h1
      | cons a t => rfl
    have hb2 : f.cols.isEmpty = false := by
      cases hc : f.cols with
      | nil => exact absurd hc h2
      | cons a t => rfl
    rw [hb1, hb2]
    simp only [Bool.or_self, Bool.false_eq_true, if_false]
    rw [if_neg (not_not_intro h3)]
    rw [h4]
    simp
  · intro w fd asOf e he
    unfold summaryStep
    rw [he]
    rfl
  · intro env w st targetDate yesterday now runId x y
    have ht := tryBodyWith_summary_invariant env w (asOfOf targetDate yesterday) runId
      (fun fd => summaryStep { w with summaryExc := x } fd (asOfOf targetDate yesterday))
      (fun fd => summaryStep { w with summaryExc := y } fd (asOfOf targetDate yesterday))
    have hx : tryBody env { w with summaryExc := x } (asOfOf targetDate yesterday) runId
        = tryBodyWith env w (asOfOf targetDate yesterday) runId
            (fun fd => summaryStep { w with summaryExc := x } fd (asOfOf targetDate yesterday)) :=
      tryBodyWith_world_summaryExc env w (asOfOf targetDate yesterday) runId _ x
    have hy : tryBody env { w with summaryExc := y } (asOfOf targetDate yesterday) runId
        = tryBodyWith env w (asOfOf targetDate yesterday) runId
            (fun fd => summaryStep { w with summaryExc := y } fd (asOfOf targetDate yesterday)) :=
      tryBodyWith_world_summaryExc env w (asOfOf targetDate yesterday) runId _ y
    unfold runDailyClose
    by_cases h1 : envBlank env "DRIVE_INPUT_FOLDER_ID" = true
    · simp [h1]
    · by_cases h2 : envBlank env "DRIVE_TEMPLATE_FILE_ID" = true
      · simp [h1, h2]
      · simp only [h1, h2, Bool.false_eq_true, if_false]
        cases lookupStr (asOfOf targetDate yesterday) st.success with
        | some p => simp
        | none =>
          cases lookupStr (asOfOf targetDate yesterday) (sweepLocks now st.locks) with
          | some p => simp
          | none =>
            rw [hx, hy]
            refine ⟨congrArg Resp.jsonOk ht.1, ?_, ht.2.2.1, ht.2.2.2⟩
            rw [ht.2.1]

/-- A one-column frame with a single row dated off the as-of date. -/
def f6 : Frame := ⟨["日付"], [[("日付", Cell.s "2025-06-02")]]⟩

/-- C6 witness: the no-data branch applied to the concrete frame. -/
theorem summary_filter_nodata_and_catch_w :
    generateSummary f6 "2025-06-01"
      = pyStrip "2025-06-01" ++ " のデータが見つかりません（日付フィルタ後0件）" :=
  summary_filter_nodata_and_catch.2.1 f6 "2025-06-01" (by decide) (by decide) (by decide)
    (by decide)
